import Mathlib

/-!
Shallow embedding of `usb_mode.c` (USB network-personality mode store and
HTTP API handlers) and proofs about it.

The program persists one integer mode value in two files:
the temporary config `/mnt/data/mode_tmp.cfg` (USB_MODE_TMP_CFG_PATH) and
the permanent config `/mnt/data/mode.cfg` (USB_MODE_CFG_PATH).
Reads resolve precedence (temporary over permanent), writes validate the
mode against the three-member enum, and two HTTP handlers wrap the store.

Filesystem model: each file is `Option (Option Int)` — `none` when the file
is absent (fopen for read fails), `some none` when it exists but
`fscanf("%d")` cannot parse an integer from it, `some (some n)` when it
exists and parses to `n`.  Whether `fopen(path, "w")` succeeds for each path
is part of the store state (the `Writable` flags); `unlink` removes a file.
-/

/-- Content of one config file as the parse step sees it: `none` = absent,
`some none` = present but fscanf fails, `some (some n)` = parses to `n`. -/
abbrev FileState := Option (Option Int)

/-- The two well-known config paths of the store:
`modeCfg` is USB_MODE_CFG_PATH (permanent), `modeTmpCfg` is
USB_MODE_TMP_CFG_PATH (temporary). -/
inductive CfgPath where
  | modeCfg
  | modeTmpCfg
deriving DecidableEq, Repr

/-- The persisted store state: the two files plus, for each path, whether
opening it for writing succeeds. -/
structure Store where
  tmpFile : FileState
  cfgFile : FileState
  tmpWritable : Bool
  cfgWritable : Bool
deriving DecidableEq, Repr

/-- File addressed by a path. -/
def Store.file (s : Store) : CfgPath → FileState
  | .modeCfg => s.cfgFile
  | .modeTmpCfg => s.tmpFile

/-- Whether fopen(path, "w") succeeds for a path. -/
def Store.writable (s : Store) : CfgPath → Bool
  | .modeCfg => s.cfgWritable
  | .modeTmpCfg => s.tmpWritable

/-- Replace the file at a path. -/
def Store.setFile (s : Store) (p : CfgPath) (f : FileState) : Store :=
  match p with
  | .modeCfg => { s with cfgFile := f }
  | .modeTmpCfg => { s with tmpFile := f }

/-- USB_MODE_CDC_NCM from usb_mode.h. -/
def USB_MODE_CDC_NCM : Int := 1
/-- USB_MODE_CDC_ECM from usb_mode.h. -/
def USB_MODE_CDC_ECM : Int := 2
/-- USB_MODE_RNDIS from usb_mode.h. -/
def USB_MODE_RNDIS : Int := 3

/-- usb_mode_name: the switch over the three enum values, defaulting to
"unknown". -/
def usb_mode_name (mode : Int) : String :=
  if mode = USB_MODE_CDC_NCM then "cdc_ncm"
  else if mode = USB_MODE_CDC_ECM then "cdc_ecm"
  else if mode = USB_MODE_RNDIS then "rndis"
  else "unknown"

/-- usb_mode_from_name: strcmp chain over the three wire names, -1 when no
name matches. -/
def usb_mode_from_name (name : String) : Int :=
  if name = "cdc_ncm" then USB_MODE_CDC_NCM
  else if name = "cdc_ecm" then USB_MODE_CDC_ECM
  else if name = "rndis" then USB_MODE_RNDIS
  else -1

/-- read_mode_from_file: -1 when fopen fails (file absent); -1 when
fscanf("%d") does not return 1; otherwise the parsed integer. -/
def read_mode_from_file (s : Store) (path : CfgPath) : Int :=
  match s.file path with
  | none => -1
  | some none => -1
  | some (some n) => n

/-- write_mode_to_file: -1 when fopen(path, "w") fails (file unchanged);
otherwise the file now holds the printed mode and 0 is returned.  The C
code does not check the fprintf result, so an open that succeeds is a
successful write here. -/
def write_mode_to_file (s : Store) (path : CfgPath) (mode : Int) : Int × Store :=
  if s.writable path then (0, s.setFile path (some (some mode)))
  else (-1, s)

/-- usb_mode_get: read the temporary config first and return it when
positive, otherwise return the permanent config's read result verbatim. -/
def usb_mode_get (s : Store) : Int :=
  let mode := read_mode_from_file s .modeTmpCfg
  if mode > 0 then mode
  else read_mode_from_file s .modeCfg

/-- usb_mode_set: reject modes outside [USB_MODE_CDC_NCM, USB_MODE_RNDIS];
when permanent, write the permanent config then unlink the temporary
config; otherwise write the temporary config only.  Returns 0 on success,
-1 on failure. -/
def usb_mode_set (s : Store) (mode : Int) (permanent : Bool) : Int × Store :=
  if mode < USB_MODE_CDC_NCM ∨ USB_MODE_RNDIS < mode then (-1, s)
  else if permanent then
    let w := write_mode_to_file s .modeCfg mode
    if w.1 ≠ 0 then (-1, w.2)
    else (0, w.2.setFile .modeTmpCfg none)
  else
    let w := write_mode_to_file s .modeTmpCfg mode
    if w.1 ≠ 0 then (-1, w.2)
    else (0, w.2)

/-! HTTP layer.  The handlers run after the framework's method check
(HTTP_CHECK_GET / HTTP_CHECK_POST reject wrong verbs upstream).  The JSON
body parsing collaborators are abstracted: `mg_json_get_str(body, "$.mode")`
becomes the `mode : Option String` request field and
`mg_json_get_bool(body, "$.permanent", &b)` becomes
`permanent : Option Bool`.  The snprintf-built JSON envelopes are modelled
field by field. -/

/-- Data object of the GET /api/usb/mode response envelope. -/
structure GetData where
  mode : String
  mode_value : Int
  is_temporary : Bool
deriving DecidableEq, Repr

/-- GET /api/usb/mode response envelope. -/
structure GetResp where
  Code : Int
  Error : String
  Data : GetData
deriving DecidableEq, Repr

/-- Parsed body of a POST /api/usb/mode request: the "$.mode" string field
if present and the "$.permanent" boolean field if present. -/
structure SetRequest where
  mode : Option String
  permanent : Option Bool
deriving DecidableEq, Repr

/-- Data object of the successful POST /api/usb/mode response envelope. -/
structure SetData where
  mode : String
  permanent : Bool
  message : String
deriving DecidableEq, Repr

/-- POST /api/usb/mode response envelope; `Data = none` models the JSON
null of failure envelopes. -/
structure SetResp where
  Code : Int
  Error : String
  Data : Option SetData
deriving DecidableEq, Repr

/-- strncpy(mode_str, mode_val, sizeof(mode_str) - 1) into the zeroed
32-byte buffer: keeps at most the first 31 characters. -/
def strncpy31 (v : String) : String := String.mk (v.data.take 31)

/-- handle_usb_mode_get: computes the effective mode, renders its name
("unknown" for any non-positive value, and usb_mode_name maps positive
out-of-enum values to "unknown" too), and reports whether the temporary
config file exists (access(USB_MODE_TMP_CFG_PATH, F_OK) == 0). -/
def handle_usb_mode_get (s : Store) : GetResp :=
  let mode := usb_mode_get s
  let mode_name := if mode > 0 then usb_mode_name mode else "unknown"
  let is_temporary := (s.file .modeTmpCfg).isSome
  { Code := 0, Error := "",
    Data := { mode := mode_name, mode_value := mode,
              is_temporary := is_temporary } }

/-- handle_usb_mode_set: copy the "$.mode" field into the 32-byte buffer
(empty when absent), default the "$.permanent" flag to false, then reject an
empty mode string, reject an unrecognized name, delegate to usb_mode_set,
and report its failure or echo the inputs on success.  Returns the response
envelope and the store as the handler leaves it. -/
def handle_usb_mode_set (s : Store) (req : SetRequest) : SetResp × Store :=
  let mode_str : String :=
    match req.mode with
    | some v => strncpy31 v
    | none => ""
  let permanent : Bool :=
    match req.permanent with
    | some b => b
    | none => false
  if mode_str.length = 0 then
    ({ Code := 1, Error := "mode参数不能为空", Data := none }, s)
  else
    let mode := usb_mode_from_name mode_str
    if mode < 0 then
      ({ Code := 1, Error := "无效的模式，支持: cdc_ncm, cdc_ecm, rndis",
         Data := none }, s)
    else
      let r := usb_mode_set s mode permanent
      if r.1 ≠ 0 then
        ({ Code := 1, Error := "设置模式失败", Data := none }, r.2)
      else
        ({ Code := 0, Error := "",
           Data := some { mode := mode_str, permanent := permanent,
                          message := "设置成功，重启后生效" } }, r.2)

/-! Filesystem effect traces.  To state frame properties (reads never
mutate the store) without baking the conclusion into the pure functions
above, each store operation also gets a trace of the filesystem calls it
performs, read off the same source lines.  `applyEff` is the filesystem
semantics of one call. -/

/-- One filesystem call made by usb_mode.c: `readFile` is the
fopen("r")/fscanf/fclose sequence of read_mode_from_file, `statFile` is
access(path, F_OK), `tryWrite` is the fopen("w")/fprintf/fclose sequence of
write_mode_to_file (which leaves the file alone when the open fails), and
`unlinkFile` is unlink(path). -/
inductive FsEff where
  | readFile (p : CfgPath)
  | statFile (p : CfgPath)
  | tryWrite (p : CfgPath) (v : Int)
  | unlinkFile (p : CfgPath)
deriving DecidableEq, Repr

/-- Whether a filesystem call can change any file. -/
def FsEff.mutates : FsEff → Bool
  | .readFile _ => false
  | .statFile _ => false
  | .tryWrite _ _ => true
  | .unlinkFile _ => true

/-- Filesystem semantics of one call: opening for read and stat leave every
file as it is; an attempted write replaces the file's content when the open
succeeds; unlink removes the file. -/
def applyEff (s : Store) (e : FsEff) : Store :=
  match e with
  | .readFile _ => s
  | .statFile _ => s
  | .tryWrite p v => if s.writable p then s.setFile p (some (some v)) else s
  | .unlinkFile p => s.setFile p none

/-- The filesystem calls usb_mode_get makes: it reads the temporary config,
and reads the permanent config only when the temporary value was not
positive. -/
def usb_mode_get_trace (s : Store) : List FsEff :=
  if read_mode_from_file s .modeTmpCfg > 0 then
    [.readFile .modeTmpCfg]
  else
    [.readFile .modeTmpCfg, .readFile .modeCfg]

/-- The filesystem calls handle_usb_mode_get makes: those of usb_mode_get
followed by the access() existence check on the temporary config. -/
def handle_usb_mode_get_trace (s : Store) : List FsEff :=
  usb_mode_get_trace s ++ [.statFile .modeTmpCfg]

/-- The filesystem calls usb_mode_set makes: none when the mode is invalid;
for a permanent set, the write to the permanent config and, when that write
succeeded, the unlink of the temporary config; for a non-permanent set, the
write to the temporary config. -/
def usb_mode_set_trace (s : Store) (mode : Int) (permanent : Bool) :
    List FsEff :=
  if mode < USB_MODE_CDC_NCM ∨ USB_MODE_RNDIS < mode then []
  else if permanent then
    if (write_mode_to_file s .modeCfg mode).1 ≠ 0 then
      [.tryWrite .modeCfg mode]
    else
      [.tryWrite .modeCfg mode, .unlinkFile .modeTmpCfg]
  else
    [.tryWrite .modeTmpCfg mode]

/-- A setting file is absent or holds a member of the three-mode enum. -/
def modeFileOK : FileState → Bool
  | none => true
  | some none => false
  | some (some n) => 1 ≤ n && n ≤ 3

/-- Both setting files are absent or hold enum members. -/
def storeModesOK (s : Store) : Bool :=
  modeFileOK s.tmpFile && modeFileOK s.cfgFile

/-- Run a sequence of usb_mode_set operations, keeping only the store each
call leaves behind. -/
def run_sets (s : Store) : List (Int × Bool) → Store
  | [] => s
  | op :: ops => run_sets (usb_mode_set s op.1 op.2).2 ops

example :
    usb_mode_get
      { tmpFile := some (some 7), cfgFile := some (some 2),
        tmpWritable := true, cfgWritable := true } = 7 := by decide

example :
    usb_mode_get
      { tmpFile := some (some 0), cfgFile := some (some 2),
        tmpWritable := true, cfgWritable := true } = 2 := by decide

example :
    usb_mode_get
      { tmpFile := some none, cfgFile := none,
        tmpWritable := true, cfgWritable := true } = -1 := by decide

example :
    (usb_mode_set
      { tmpFile := some (some 1), cfgFile := none,
        tmpWritable := true, cfgWritable := true } 3 true).2 =
      { tmpFile := none, cfgFile := some (some 3),
        tmpWritable := true, cfgWritable := true } := by decide

example :
    (usb_mode_set
      { tmpFile := some (some 1), cfgFile := none,
        tmpWritable := true, cfgWritable := true } 4 true).1 = -1 := by decide

/-- Soundness of the trace model for the mutating operation: folding the
filesystem semantics over usb_mode_set's trace yields exactly the store
usb_mode_set returns. -/
theorem usb_mode_set_trace_sound (s : Store) (mode : Int)
    (permanent : Bool) :
    List.foldl applyEff s (usb_mode_set_trace s mode permanent) =
      (usb_mode_set s mode permanent).2 := by
  unfold usb_mode_set_trace usb_mode_set write_mode_to_file
  split
  · rfl
  · split
    · rcases p : s.writable CfgPath.modeCfg <;>
        simp [p, applyEff, List.foldl]
    · rcases p : s.writable CfgPath.modeTmpCfg <;>
        simp [p, applyEff, List.foldl]

/-- Two strings are equal exactly when their character lists are. -/
theorem string_eq_iff_data (s t : String) : s = t ↔ s.data = t.data := by
  constructor
  · intro h
    rw [h]
  · intro h
    cases s
    cases t
    simp_all

/-- Truncation to 31 characters cannot hit a string shorter than 31
characters other than by copying it whole. -/
theorem strncpy31_eq_iff (v name : String) (h : name.length < 31) :
    strncpy31 v = name ↔ v = name := by
  rw [string_eq_iff_data, string_eq_iff_data]
  show v.data.take 31 = name.data ↔ v.data = name.data
  have hn : name.data.length < 31 := h
  constructor
  · intro h2
    have hd : v.data.length ≤ 31 := by
      by_contra hc
      push_neg at hc
      have h31 : (v.data.take 31).length = 31 := by
        rw [List.length_take]
        omega
      rw [h2] at h31
      omega
    rwa [List.take_of_length_le hd] at h2
  · intro h2
    rw [h2, List.take_of_length_le (le_of_lt hn)]

/-- The truncated copy is empty exactly when the source string is. -/
theorem strncpy31_length_eq_zero (v : String) :
    (strncpy31 v).length = 0 ↔ v = "" := by
  rw [string_eq_iff_data]
  show (v.data.take 31).length = 0 ↔ v.data = ("" : String).data
  rw [List.length_take]
  have he : ("" : String).data = [] := rfl
  rw [he]
  constructor
  · intro h0
    have : v.data.length = 0 := by omega
    exact List.eq_nil_of_length_eq_zero this
  · intro h0
    rw [h0]
    simp

/-- usb_mode_get with its let binding reduced. -/
theorem usb_mode_get_eq (s : Store) :
    usb_mode_get s =
      if read_mode_from_file s .modeTmpCfg > 0 then
        read_mode_from_file s .modeTmpCfg
      else read_mode_from_file s .modeCfg := rfl

/-- C1: whenever the temporary file is absent, unparsable, or holds a
non-positive value, usb_mode_get falls through to the permanent config:
it returns the permanent file's parsed value when the file is present and
syntactically valid, and the Unset sentinel -1 when the permanent file is
absent or unparsable. -/
theorem usb_mode_get_fallthrough_C1 (s : Store)
    (h : s.tmpFile = none ∨ s.tmpFile = some none ∨
         ∃ n, n ≤ 0 ∧ s.tmpFile = some (some n)) :
    (∀ n, s.cfgFile = some (some n) → usb_mode_get s = n) ∧
    ((s.cfgFile = none ∨ s.cfgFile = some none) → usb_mode_get s = -1) := by
  have ht : ¬ read_mode_from_file s .modeTmpCfg > 0 := by
    rcases h with h | h | ⟨n, hn, h⟩ <;>
      simp [read_mode_from_file, Store.file, h]
    omega
  constructor
  · intro n hc
    rw [usb_mode_get_eq, if_neg ht]
    simp [read_mode_from_file, Store.file, hc]
  · intro hc
    rcases hc with hc | hc <;>
      · rw [usb_mode_get_eq, if_neg ht]
        simp [read_mode_from_file, Store.file, hc]

theorem usb_mode_get_fallthrough_C1_witness :
    usb_mode_get { tmpFile := some (some 0), cfgFile := some (some 2),
                   tmpWritable := true, cfgWritable := true } = 2 :=
  (usb_mode_get_fallthrough_C1 _
    (Or.inr (Or.inr ⟨0, le_refl 0, rfl⟩))).1 2 rfl

/-- C2: when the temporary file parses to a positive integer n — enum
member or not — usb_mode_get returns n verbatim, and its filesystem trace
shows it never opened the permanent config. -/
theorem usb_mode_get_temp_verbatim_C2 (s : Store) (n : Int)
    (hn : 0 < n) (ht : s.tmpFile = some (some n)) :
    usb_mode_get s = n ∧
    usb_mode_get_trace s = [FsEff.readFile CfgPath.modeTmpCfg] := by
  have hr : read_mode_from_file s .modeTmpCfg = n := by
    simp [read_mode_from_file, Store.file, ht]
  constructor
  · simp [usb_mode_get, hr, hn]
  · simp [usb_mode_get_trace, hr, hn]

theorem usb_mode_get_temp_verbatim_C2_witness :
    usb_mode_get { tmpFile := some (some 7), cfgFile := some (some 2),
                   tmpWritable := true, cfgWritable := true } = 7 ∧
    usb_mode_get_trace
      { tmpFile := some (some 7), cfgFile := some (some 2),
        tmpWritable := true, cfgWritable := true } =
      [FsEff.readFile CfgPath.modeTmpCfg] :=
  usb_mode_get_temp_verbatim_C2 _ 7 (by decide) rfl

/-- C3: a successful permanent set of a valid mode X stores X in the
permanent config, removes the temporary config, and a subsequent
usb_mode_get returns X. -/
theorem usb_mode_set_permanent_C3 (s : Store) (X : Int)
    (hX : 1 ≤ X ∧ X ≤ 3) (hs : (usb_mode_set s X true).1 = 0) :
    (usb_mode_set s X true).2.cfgFile = some (some X) ∧
    (usb_mode_set s X true).2.tmpFile = none ∧
    usb_mode_get (usb_mode_set s X true).2 = X := by
  have hg : ¬ (X < USB_MODE_CDC_NCM ∨ USB_MODE_RNDIS < X) := by
    simp [USB_MODE_CDC_NCM, USB_MODE_RNDIS]
    omega
  rcases p : s.cfgWritable
  · exfalso
    rw [usb_mode_set] at hs
    simp [hg, write_mode_to_file, Store.writable, p] at hs
  · refine ⟨?_, ?_, ?_⟩ <;>
      simp [usb_mode_set, hg, write_mode_to_file, Store.writable, p,
            Store.setFile, usb_mode_get, read_mode_from_file, Store.file]

theorem usb_mode_set_permanent_C3_witness :
    usb_mode_get
      (usb_mode_set
        { tmpFile := some (some 1), cfgFile := none,
          tmpWritable := true, cfgWritable := true } 3 true).2 = 3 :=
  (usb_mode_set_permanent_C3 _ 3 (by decide) (by decide)).2.2

/-- C4: usb_mode_set returns only 0 or -1; it returns -1 exactly when the
mode is outside the enum (InvalidMode) or the destination config file
cannot be opened for writing (StoreWriteFailed); and every failing call
leaves the store exactly as it was. -/
theorem usb_mode_set_failure_iff_C4 (s : Store) (mode : Int)
    (permanent : Bool) :
    ((usb_mode_set s mode permanent).1 = 0 ∨
     (usb_mode_set s mode permanent).1 = -1) ∧
    ((usb_mode_set s mode permanent).1 = -1 ↔
       (mode < 1 ∨ 3 < mode) ∨
       (permanent = true ∧ s.cfgWritable = false) ∨
       (permanent = false ∧ s.tmpWritable = false)) ∧
    ((usb_mode_set s mode permanent).1 = -1 →
       (usb_mode_set s mode permanent).2 = s) := by
  by_cases hg : mode < USB_MODE_CDC_NCM ∨ USB_MODE_RNDIS < mode
  · have hg' : mode < 1 ∨ 3 < mode := by
      simpa [USB_MODE_CDC_NCM, USB_MODE_RNDIS] using hg
    simp [usb_mode_set, hg, hg']
  · have hg' : ¬ (mode < 1 ∨ 3 < mode) := by
      simpa [USB_MODE_CDC_NCM, USB_MODE_RNDIS] using hg
    rcases permanent <;> rcases pw : s.tmpWritable <;>
      rcases qw : s.cfgWritable <;>
        simp [usb_mode_set, hg, hg', write_mode_to_file, Store.writable,
              pw, qw]

theorem usb_mode_set_failure_iff_C4_witness :
    (usb_mode_set
      { tmpFile := some (some 2), cfgFile := some (some 3),
        tmpWritable := true, cfgWritable := false } 1 true).2 =
      { tmpFile := some (some 2), cfgFile := some (some 3),
        tmpWritable := true, cfgWritable := false } :=
  (usb_mode_set_failure_iff_C4
    { tmpFile := some (some 2), cfgFile := some (some 3),
      tmpWritable := true, cfgWritable := false } 1 true).2.2 (by decide)

/-- C5: a non-permanent set of a valid mode never touches the permanent
config, and when it succeeds it stores the mode in the temporary config,
after which usb_mode_get returns that mode whatever the permanent config
holds. -/
theorem usb_mode_set_temporary_C5 (s : Store) (m : Int)
    (hm : 1 ≤ m ∧ m ≤ 3) :
    (usb_mode_set s m false).2.cfgFile = s.cfgFile ∧
    ((usb_mode_set s m false).1 = 0 →
      (usb_mode_set s m false).2.tmpFile = some (some m) ∧
      usb_mode_get (usb_mode_set s m false).2 = m) := by
  have hg : ¬ (m < USB_MODE_CDC_NCM ∨ USB_MODE_RNDIS < m) := by
    simp [USB_MODE_CDC_NCM, USB_MODE_RNDIS]
    omega
  rcases pw : s.tmpWritable
  · simp [usb_mode_set, hg, write_mode_to_file, Store.writable, pw]
  · have hm' : (0 : Int) < m := by omega
    simp [usb_mode_set, hg, write_mode_to_file, Store.writable, pw,
          Store.setFile, usb_mode_get, read_mode_from_file, Store.file, hm']

theorem usb_mode_set_temporary_C5_witness :
    usb_mode_get
      (usb_mode_set
        { tmpFile := none, cfgFile := some (some 3),
          tmpWritable := true, cfgWritable := true } 1 false).2 = 1 :=
  ((usb_mode_set_temporary_C5
    { tmpFile := none, cfgFile := some (some 3),
      tmpWritable := true, cfgWritable := true } 1 (by decide)).2
    (by decide)).2

/-- C6: a request whose mode name is missing, empty, or not one of the
three wire names (exact, case-sensitive comparison) is answered with a
Code 1 envelope carrying a non-empty error message, and the store is left
untouched. -/
theorem handle_usb_mode_set_reject_C6 (s : Store) (req : SetRequest)
    (h : req.mode = none ∨ ∃ v, req.mode = some v ∧
         v ≠ "cdc_ncm" ∧ v ≠ "cdc_ecm" ∧ v ≠ "rndis") :
    (handle_usb_mode_set s req).1.Code = 1 ∧
    (handle_usb_mode_set s req).1.Error ≠ "" ∧
    (handle_usb_mode_set s req).2 = s := by
  rcases h with h | ⟨v, hv, h1, h2, h3⟩
  · refine ⟨?_, ?_, ?_⟩ <;> simp [handle_usb_mode_set, h]
  · by_cases hv0 : v = ""
    · subst hv0
      have hstr : strncpy31 "" = "" := by decide
      refine ⟨?_, ?_, ?_⟩ <;>
        simp [handle_usb_mode_set, hv, hstr]
    · have hlen : ¬ (strncpy31 v).length = 0 := by
        rw [strncpy31_length_eq_zero]
        exact hv0
      have hn1 : ¬ strncpy31 v = "cdc_ncm" := by
        rw [strncpy31_eq_iff v "cdc_ncm" (by decide)]
        exact h1
      have hn2 : ¬ strncpy31 v = "cdc_ecm" := by
        rw [strncpy31_eq_iff v "cdc_ecm" (by decide)]
        exact h2
      have hn3 : ¬ strncpy31 v = "rndis" := by
        rw [strncpy31_eq_iff v "rndis" (by decide)]
        exact h3
      have hfrom : usb_mode_from_name (strncpy31 v) = -1 := by
        simp [usb_mode_from_name, hn1, hn2, hn3]
      refine ⟨?_, ?_, ?_⟩ <;>
        simp [handle_usb_mode_set, hv, hlen, hfrom]

theorem handle_usb_mode_set_reject_C6_witness :
    (handle_usb_mode_set
      { tmpFile := none, cfgFile := some (some 2),
        tmpWritable := true, cfgWritable := true }
      { mode := some "bogus", permanent := none }).1.Code = 1 ∧
    (handle_usb_mode_set
      { tmpFile := none, cfgFile := some (some 2),
        tmpWritable := true, cfgWritable := true }
      { mode := some "bogus", permanent := none }).2 =
      { tmpFile := none, cfgFile := some (some 2),
        tmpWritable := true, cfgWritable := true } := by
  have h := handle_usb_mode_set_reject_C6
    { tmpFile := none, cfgFile := some (some 2),
      tmpWritable := true, cfgWritable := true }
    { mode := some "bogus", permanent := none }
    (Or.inr ⟨"bogus", rfl, by decide, by decide, by decide⟩)
  exact ⟨h.1, h.2.2⟩

/-- C7: for a recognized mode name with the permanent flag absent, the
write handler performs exactly a non-permanent usb_mode_set, and when that
set succeeds it answers Code 0, echoing the mode name and the (defaulted)
permanent flag together with the restart advisory message. -/
theorem handle_usb_mode_set_default_flag_C7 (s : Store) (v : String)
    (hv : v = "cdc_ncm" ∨ v = "cdc_ecm" ∨ v = "rndis") :
    (handle_usb_mode_set s { mode := some v, permanent := none }).2 =
      (usb_mode_set s (usb_mode_from_name v) false).2 ∧
    ((usb_mode_set s (usb_mode_from_name v) false).1 = 0 →
      (handle_usb_mode_set s { mode := some v, permanent := none }).1 =
        { Code := 0, Error := "",
          Data := some { mode := v, permanent := false,
                         message := "设置成功，重启后生效" } }) := by
  rcases hv with hv | hv | hv <;> subst hv
  · have hstr : strncpy31 "cdc_ncm" = "cdc_ncm" := by decide
    have hlen : ¬ ("cdc_ncm" : String).length = 0 := by decide
    have hfn : usb_mode_from_name "cdc_ncm" = 1 := by decide
    rcases pw : s.tmpWritable <;>
      simp [handle_usb_mode_set, hstr, hlen, hfn, usb_mode_set,
            write_mode_to_file, Store.writable, pw, Store.setFile,
            USB_MODE_CDC_NCM, USB_MODE_RNDIS]
  · have hstr : strncpy31 "cdc_ecm" = "cdc_ecm" := by decide
    have hlen : ¬ ("cdc_ecm" : String).length = 0 := by decide
    have hfn : usb_mode_from_name "cdc_ecm" = 2 := by decide
    rcases pw : s.tmpWritable <;>
      simp [handle_usb_mode_set, hstr, hlen, hfn, usb_mode_set,
            write_mode_to_file, Store.writable, pw, Store.setFile,
            USB_MODE_CDC_NCM, USB_MODE_RNDIS]
  · have hstr : strncpy31 "rndis" = "rndis" := by decide
    have hlen : ¬ ("rndis" : String).length = 0 := by decide
    have hfn : usb_mode_from_name "rndis" = 3 := by decide
    rcases pw : s.tmpWritable <;>
      simp [handle_usb_mode_set, hstr, hlen, hfn, usb_mode_set,
            write_mode_to_file, Store.writable, pw, Store.setFile,
            USB_MODE_CDC_NCM, USB_MODE_RNDIS]

theorem handle_usb_mode_set_default_flag_C7_witness :
    (handle_usb_mode_set
      { tmpFile := none, cfgFile := some (some 1),
        tmpWritable := true, cfgWritable := true }
      { mode := some "rndis", permanent := none }).1 =
      { Code := 0, Error := "",
        Data := some { mode := "rndis", permanent := false,
                       message := "设置成功，重启后生效" } } :=
  (handle_usb_mode_set_default_flag_C7
    { tmpFile := none, cfgFile := some (some 1),
      tmpWritable := true, cfgWritable := true }
    "rndis" (Or.inr (Or.inr rfl))).2 (by decide)

/-- C8: the read handler always answers Code 0 with an empty Error; its
mode name is the wire name when the effective mode is an enum member and
"unknown" otherwise; its mode_value is the raw effective mode (and the
sentinel -1 when neither file yields a parsed value); and its is_temporary
flag is exactly the existence check of the temporary config file,
whatever that file contains. -/
theorem handle_usb_mode_get_C8 (s : Store) :
    (handle_usb_mode_get s).Code = 0 ∧
    (handle_usb_mode_get s).Error = "" ∧
    (handle_usb_mode_get s).Data.mode =
      (if usb_mode_get s = 1 then "cdc_ncm"
       else if usb_mode_get s = 2 then "cdc_ecm"
       else if usb_mode_get s = 3 then "rndis"
       else "unknown") ∧
    (handle_usb_mode_get s).Data.mode_value = usb_mode_get s ∧
    ((s.tmpFile = none ∨ s.tmpFile = some none) ∧
     (s.cfgFile = none ∨ s.cfgFile = some none) →
       (handle_usb_mode_get s).Data.mode_value = -1) ∧
    (handle_usb_mode_get s).Data.is_temporary = s.tmpFile.isSome := by
  refine ⟨rfl, rfl, ?_, rfl, ?_, rfl⟩
  · show (if usb_mode_get s > 0 then usb_mode_name (usb_mode_get s)
          else "unknown") = _
    by_cases h1 : usb_mode_get s = 1
    · simp [h1, usb_mode_name, USB_MODE_CDC_NCM]
    · by_cases h2 : usb_mode_get s = 2
      · simp [h1, h2, usb_mode_name, USB_MODE_CDC_NCM, USB_MODE_CDC_ECM]
      · by_cases h3 : usb_mode_get s = 3
        · simp [h1, h2, h3, usb_mode_name,
                USB_MODE_CDC_NCM, USB_MODE_CDC_ECM, USB_MODE_RNDIS]
        · by_cases hp : usb_mode_get s > 0
          · simp [h1, h2, h3, hp, usb_mode_name,
                  USB_MODE_CDC_NCM, USB_MODE_CDC_ECM, USB_MODE_RNDIS]
          · simp [h1, h2, h3, hp]
  · rintro ⟨ha, hb⟩
    show usb_mode_get s = -1
    rcases ha with ha | ha <;> rcases hb with hb | hb <;>
      simp [usb_mode_get, read_mode_from_file, Store.file, ha, hb]

theorem handle_usb_mode_get_C8_witness :
    (handle_usb_mode_get
      { tmpFile := none, cfgFile := none,
        tmpWritable := true, cfgWritable := true }).Data.mode_value = -1 ∧
    (handle_usb_mode_get
      { tmpFile := none, cfgFile := none,
        tmpWritable := true, cfgWritable := true }).Data.is_temporary
      = false :=
  ⟨(handle_usb_mode_get_C8 _).2.2.2.2.1 ⟨Or.inl rfl, Or.inl rfl⟩,
   (handle_usb_mode_get_C8 _).2.2.2.2.2⟩

/-- One usb_mode_set call preserves the enum-or-absent shape of both
setting files: the only content it ever writes is the already validated
mode, and unlink only removes a file. -/
theorem usb_mode_set_preserves_modesOK (s : Store) (m : Int) (p : Bool)
    (h : storeModesOK s = true) :
    storeModesOK (usb_mode_set s m p).2 = true := by
  by_cases hg : m < USB_MODE_CDC_NCM ∨ USB_MODE_RNDIS < m
  · simpa [usb_mode_set, hg] using h
  · have hm : 1 ≤ m ∧ m ≤ 3 := by
      simp [USB_MODE_CDC_NCM, USB_MODE_RNDIS] at hg
      omega
    simp [storeModesOK, modeFileOK] at h
    rcases p
    · rcases pw : s.tmpWritable
      · simpa [usb_mode_set, hg, write_mode_to_file, Store.writable, pw,
               storeModesOK, modeFileOK] using h
      · simp [usb_mode_set, hg, write_mode_to_file, Store.writable, pw,
              Store.setFile, storeModesOK, modeFileOK]
        exact ⟨⟨hm.1, hm.2⟩, h.2⟩
    · rcases qw : s.cfgWritable
      · simpa [usb_mode_set, hg, write_mode_to_file, Store.writable, qw,
               storeModesOK, modeFileOK] using h
      · simp [usb_mode_set, hg, write_mode_to_file, Store.writable, qw,
              Store.setFile, storeModesOK, modeFileOK]
        exact ⟨hm.1, hm.2⟩

/-- C9: from any store whose setting files are absent or hold enum
members, every sequence of usb_mode_set calls keeps both files absent or
holding enum members — the store itself never writes an out-of-enum
value. -/
theorem usb_mode_set_invariant_C9 (s : Store) (ops : List (Int × Bool))
    (h : storeModesOK s = true) :
    storeModesOK (run_sets s ops) = true := by
  induction ops generalizing s with
  | nil => exact h
  | cons op ops ih =>
      exact ih _ (usb_mode_set_preserves_modesOK s op.1 op.2 h)

theorem usb_mode_set_invariant_C9_witness :
    storeModesOK
      (run_sets
        { tmpFile := none, cfgFile := some (some 2),
          tmpWritable := true, cfgWritable := true }
        [(3, false), (9, false), (1, true)]) = true :=
  usb_mode_set_invariant_C9 _ _ (by decide)

/-- C10: the read path — usb_mode_get and the GET handler — performs no
mutating filesystem call, and folding the filesystem semantics over its
traces leaves every store exactly as it was. -/
theorem read_path_frame_C10 (s : Store) :
    (∀ e ∈ usb_mode_get_trace s, e.mutates = false) ∧
    (∀ e ∈ handle_usb_mode_get_trace s, e.mutates = false) ∧
    List.foldl applyEff s (usb_mode_get_trace s) = s ∧
    List.foldl applyEff s (handle_usb_mode_get_trace s) = s := by
  unfold handle_usb_mode_get_trace usb_mode_get_trace
  split <;> simp [FsEff.mutates, applyEff]

theorem read_path_frame_C10_witness :
    List.foldl applyEff
      { tmpFile := some none, cfgFile := some (some 2),
        tmpWritable := true, cfgWritable := true }
      (handle_usb_mode_get_trace
        { tmpFile := some none, cfgFile := some (some 2),
          tmpWritable := true, cfgWritable := true }) =
      { tmpFile := some none, cfgFile := some (some 2),
        tmpWritable := true, cfgWritable := true } :=
  (read_path_frame_C10 _).2.2.2
